import Mathlib

/-!
Shallow embedding of the two scripts in this repository and proofs about them.

Pipeline A (src/speedread/speedread.py): file → text extraction (with OCR
fallback for PDFs) → LLM summarization client (`AiReader`).

Pipeline B (src/vancouver_heritage/heritage_photos.py): scrape tables for
locations without photos, geocode them, export to a maps URL / map plot / CSV.

Modelling conventions:
* Python exceptions are modelled by `Except PyError`.
* Python `None` for optional strings is `Option String`; Python truthiness of
  a `str | None` value (`None` and `""` are falsy) is `optStrTruthy`.
* Python floats appear only as opaque values that get rendered into strings
  (URL building, map plotting); they are modelled by their decimal rendering,
  a `String`, since no claim involves float arithmetic.
* The file system visible to `read_file` is an association list from paths to
  text-file contents and from paths to PDF page lists; a PDF page carries both
  the text `pypdf` extracts from it and the text OCR recognizes from its
  rendered image (both external-library oracles).
-/

set_option autoImplicit false

deriving instance DecidableEq for Except

namespace Hack

/-- Python exception values that the embedded code can raise. -/
inductive PyError where
  | valueError (msg : String)
  | notImplementedError (msg : String)
  | indexError (msg : String)
  | fileNotFoundError (msg : String)
  deriving DecidableEq, Repr

/-- Python truthiness of a `str | None` value: `None` and `""` are falsy. -/
def optStrTruthy : Option String → Bool
  | none => false
  | some s => s ≠ ""

/-- Whether `sub` occurs as a contiguous sublist of `s` (structural, so it
reduces inside the kernel). -/
def listContains (sub : List Char) : List Char → Bool
  | [] => sub.isEmpty
  | c :: rest => sub.isPrefixOf (c :: rest) || listContains sub rest

/-- Python substring membership `sub in s` (`"" in s` is `True`). -/
def pyIn (sub s : String) : Bool :=
  listContains sub.data s.data

/-- Python `s.endswith(suffix)`. -/
def pyEndsWith (s sfx : String) : Bool :=
  sfx.data.isSuffixOf s.data

/-- Python `s.split(c)` for a one-character separator, over char lists. -/
def splitOnChar (c : Char) : List Char → List (List Char)
  | [] => [[]]
  | x :: rest =>
    let r := splitOnChar c rest
    if x = c then [] :: r
    else
      match r with
      | [] => [[x]]
      | h :: t => (x :: h) :: t

/-- Python `s.split('.')[-1]`: the part of `s` after its last dot (the whole
of `s` when it has no dot). -/
def lastSplitDot (s : String) : String :=
  String.mk ((splitOnChar (Char.ofNat 46) s.data).getLastD [])

/-- Python f-string rendering of a `str | None` value (`None` prints as `"None"`). -/
def pyFStr : Option String → String
  | none => "None"
  | some s => s

/-- Lookup in an association list keyed by strings (used for the file system). -/
def assocFind {α : Type} : List (String × α) → String → Option α
  | [], _ => none
  | (k, v) :: rest, key => if k = key then some v else assocFind rest key

/-- One page of a PDF, as the external libraries see it: the text `pypdf`
extracts from it (`page.extract_text()`), and the text `pytesseract` recognizes
on its rendered image (`pytesseract.image_to_string(image)`). -/
structure PdfPage where
  extractedText : String
  ocrText : String
  deriving DecidableEq, Repr

/-- The file system visible to the script: text files and PDF files by path. -/
structure FileSystem where
  txt : List (String × String)
  pdf : List (String × List PdfPage)
  deriving DecidableEq, Repr

/-- `text_from_images` (speedread.py lines 91-96): render the PDF's pages to
images with `pdf2image` and accumulate `pytesseract.image_to_string` over them
(`text = ""` then `text += ...` per image). A missing file makes
`pdf2image.convert_from_path` fail. -/
def text_from_images (fs : FileSystem) (file : String) : Except PyError String :=
  match assocFind fs.pdf file with
  | none => Except.error (PyError.fileNotFoundError file)
  | some pages => Except.ok (pages.foldl (fun acc p => acc ++ p.ocrText) "")

/-- `read_file` (speedread.py lines 63-80). `if not file:` raises `ValueError`
for `None` or `""`; `.pdf` paths join per-page `extract_text()` and fall back
to `text_from_images` when that join is empty; `.txt` paths read raw contents;
anything else raises `NotImplementedError` naming `file.split('.')[-1]`. -/
def read_file (fs : FileSystem) (file : Option String) : Except PyError String :=
  match file with
  | none => Except.error (PyError.valueError "No file path provided")
  | some f =>
    if f = "" then Except.error (PyError.valueError "No file path provided")
    else if pyEndsWith f ".pdf" then
      match assocFind fs.pdf f with
      | none => Except.error (PyError.fileNotFoundError f)
      | some pages =>
        let text := String.join (pages.map (fun p => p.extractedText))
        if text = "" then text_from_images fs f
        else Except.ok text
    else if pyEndsWith f ".txt" then
      match assocFind fs.txt f with
      | none => Except.error (PyError.fileNotFoundError f)
      | some contents => Except.ok contents
    else
      Except.error (PyError.notImplementedError
        ("File type " ++ lastSplitDot f ++ " not supported"))

/-- Process configuration (`config.ANTHROPIC_API_KEY`). -/
structure Config where
  ANTHROPIC_API_KEY : String
  deriving DecidableEq, Repr

/-- The `AiReader` attrs class (speedread.py lines 22-38) after
`__attrs_post_init__` has run. The `anthropic.Anthropic` client is modelled by
the api key it was constructed with, its only observable input here. -/
structure AiReader where
  file : Option String
  model : String
  text : Option String
  api_key : Option String
  client_api_key : String
  deriving DecidableEq, Repr

/-- The text-loading step of `AiReader.__attrs_post_init__` (lines 31-32):
`if self.file and not self.text: self.text = read_file(self.file)`. -/
def load_text (fs : FileSystem) (file : Option String) (text : Option String) :
    Except PyError (Option String) :=
  if optStrTruthy file && !(optStrTruthy text) then
    match read_file fs file with
    | Except.error e => Except.error e
    | Except.ok t => Except.ok (some t)
  else Except.ok text

/-- Construction of an `AiReader`, i.e. `__attrs_post_init__` (lines 30-38):
load the text, then the model check: a model containing `"claude"` resolves
the api key (`self.api_key or config.ANTHROPIC_API_KEY`) and builds the
client; any other model raises `NotImplementedError`. -/
def AiReader.make (fs : FileSystem) (cfg : Config) (file : Option String)
    (model : String) (text : Option String) (api_key : Option String) :
    Except PyError AiReader :=
  match load_text fs file text with
  | Except.error e => Except.error e
  | Except.ok text2 =>
    if pyIn "claude" model then
      let key := if optStrTruthy api_key then api_key.getD "" else cfg.ANTHROPIC_API_KEY
      Except.ok { file := file, model := model, text := text2,
                  api_key := some key, client_api_key := key }
    else
      Except.error (PyError.notImplementedError ("Model " ++ model ++ " not supported"))

/-! ## Pipeline B: heritage_photos.py -/

/-- A `geopy.location.Location` as returned by Nominatim. Its coordinates are
floats in Python; here they are opaque values carried by their decimal
rendering (a `String`), since the scripts only ever format them. -/
structure GeopyLocation where
  geo_address : String
  latitude : String
  longitude : String
  altitude : String
  deriving DecidableEq, Repr

/-- The possible outcomes of one `geolocator.geocode(query)` call: a resolved
location, `None` (not found), or a raised exception (network failure etc.). -/
inductive GeoOutcome where
  | found (g : GeopyLocation)
  | notFound
  | raised
  deriving DecidableEq, Repr

/-- The external geocoding service, as an oracle from query strings to
outcomes. -/
def Geocoder : Type := String → GeoOutcome

/-- The raw `geolocator.geocode(query)` call: it either returns an
`Optional[GeopyLocation]` or raises. -/
def geocode_call (geo : Geocoder) (query : String) : Except String (Option GeopyLocation) :=
  match geo query with
  | GeoOutcome.found g => Except.ok (some g)
  | GeoOutcome.notFound => Except.ok none
  | GeoOutcome.raised => Except.error "geocoding exception"

/-- `Location._geolocate` (heritage_photos.py lines 20-26): geocode
`f"{address}, {city}"` inside `try:`, with a bare `except:` returning `None`. -/
def geolocate (geo : Geocoder) (address city : String) : Option GeopyLocation :=
  match geocode_call geo (address ++ ", " ++ city) with
  | Except.ok r => r
  | Except.error _ => none

/-- The `Location` attrs class (heritage_photos.py lines 13-40), fields in
attrs definition order: `address`, `city`, `geopy_location` (init=False,
defaulted by `_geolocate`), `name`. -/
structure Location where
  address : String
  city : String
  geopy_location : Option GeopyLocation
  name : Option String
  deriving DecidableEq, Repr

/-- Constructing a `Location(address=..., city=..., name=...)`: attrs runs the
`_geolocate` default for `geopy_location`. Construction itself never raises
from geocoding (the bare `except` swallows everything). -/
def Location.make (geo : Geocoder) (address city : String) (name : Option String) : Location :=
  { address := address, city := city,
    geopy_location := geolocate geo address city, name := name }

/-- The `latitude` property (lines 28-33). `if self.geopy_location:` tests
truthiness: `None` is falsy and a `GeopyLocation` object (no `__bool__`) is
always truthy. -/
def Location.latitude (l : Location) : Option String :=
  match l.geopy_location with
  | some g => some g.latitude
  | none => none

/-- The `longitude` property (lines 35-40). -/
def Location.longitude (l : Location) : Option String :=
  match l.geopy_location with
  | some g => some g.longitude
  | none => none

/-- A single-quote character, for rendering Python `repr` of strings. -/
def squote : String := String.mk [Char.ofNat 39]

/-- Python `repr` of a plain string: the string in single quotes. (The
escaping Python applies to quotes/backslashes inside the string is not
modelled; every string this development instantiates is plain.) -/
def pyStrRepr (s : String) : String := squote ++ s ++ squote

/-- `geopy.location.Location.__repr__`:
`"Location(%s, (%s, %s, %s))" % (address, latitude, longitude, altitude)`. -/
def GeopyLocation.reprStr (g : GeopyLocation) : String :=
  "Location(" ++ g.geo_address ++ ", (" ++ g.latitude ++ ", " ++ g.longitude ++
    ", " ++ g.altitude ++ "))"

/-- `str()` of a `Location`: attrs generates `__repr__` (and no `__str__`),
listing the fields in definition order with `repr` of each value; `repr` of
`None` is `"None"`. -/
def Location.reprStr (l : Location) : String :=
  "Location(address=" ++ pyStrRepr l.address ++ ", city=" ++ pyStrRepr l.city ++
    ", geopy_location=" ++
    (match l.geopy_location with
     | some g => g.reprStr
     | none => "None") ++
    ", name=" ++
    (match l.name with
     | some n => pyStrRepr n
     | none => "None") ++ ")"

/-- One `td` cell of a scraped table: its stripped text
(`get_text(strip=True)`) and whether `cell.find("img")` finds an `img`
element. -/
structure Cell where
  text : String
  hasImg : Bool
  deriving DecidableEq, Repr

/-- The empty cell (used only as the `getD` default under a length bound that
guarantees it is never taken). -/
def Cell.empty : Cell := { text := "", hasImg := false }

/-- One `tr` row: its list of `td` cells. -/
structure TableRow where
  cells : List Cell
  deriving DecidableEq, Repr

/-- One `table` of class `wikitable`: the stripped texts of all its `th`
elements (in document order, as `table.findAll("th")` yields them) and all
its `tr` rows. -/
structure HtmlTable where
  headers : List String
  rows : List TableRow
  deriving DecidableEq, Repr

/-- The body of the per-table loop in `get_locations_without_photos`
(heritage_photos.py lines 66-88): find the first header containing the photo
substring and the first containing the location substring; when both exist,
keep every row with enough cells whose photo cell has no `img`, building a
`Location` from its location cell's text. The row loop's append is rendered
as filter-then-map. -/
def tableLocations (geo : Geocoder) (location_col photo_col city : String)
    (table : HtmlTable) : List Location :=
  match table.headers.findIdx? (fun h => pyIn photo_col h),
        table.headers.findIdx? (fun h => pyIn location_col h) with
  | some photo_index, some location_index =>
    ((table.rows.filter (fun row =>
        decide (max photo_index location_index < row.cells.length) &&
          !(row.cells.getD photo_index Cell.empty).hasImg)).map
      (fun row =>
        Location.make geo (row.cells.getD location_index Cell.empty).text city none))
  | _, _ => []

/-- `get_locations_without_photos` (lines 43-90), applied to the already
fetched-and-parsed list of `wikitable` tables of the page. -/
def get_locations_without_photos (geo : Geocoder) (tables : List HtmlTable)
    (location_col photo_col city : String) : List Location :=
  (tables.map (tableLocations geo location_col photo_col city)).flatten

/-- `generate_google_maps_url_for_ios` (lines 93-110). With no explicit start
location it indexes `locations[0]` (IndexError on the empty list). Note the
source computes `start_str` (the `f"{lat},{long}"` pair) but interpolates
`{start_location}` — the object's `str()` — into `saddr`. -/
def generate_google_maps_url_for_ios (locations : List Location)
    (start_location : Option Location) : Except PyError String :=
  match (match start_location with
         | some s => Except.ok s
         | none =>
           match locations with
           | [] => Except.error (PyError.indexError "list index out of range")
           | l :: _ => Except.ok l) with
  | Except.error e => Except.error e
  | Except.ok start =>
    let start_str := pyFStr start.latitude ++ "," ++ pyFStr start.longitude
    let destination_locations := String.intercalate "+to:"
      (locations.map (fun loc => pyFStr loc.latitude ++ "," ++ pyFStr loc.longitude))
    let _ := start_str
    Except.ok ("comgooglemaps://?saddr=" ++ Location.reprStr start ++
      "&daddr=" ++ destination_locations)

/-- The observable content of the `gmplot` map `plot_locations_on_map`
draws: centre coordinates, zoom 13, and one marker (lat, long, title) per
location. -/
structure MapPlot where
  centre_latitude : Option String
  centre_longitude : Option String
  zoom : Nat
  markers : List (Option String × Option String × String)
  deriving DecidableEq, Repr

/-- `plot_locations_on_map` (lines 113-131). With no explicit centre it
indexes `locations[0]` (IndexError on the empty list). -/
def plot_locations_on_map (locations : List Location)
    (centre_location : Option Location) : Except PyError MapPlot :=
  match (match centre_location with
         | some c => Except.ok c
         | none =>
           match locations with
           | [] => Except.error (PyError.indexError "list index out of range")
           | l :: _ => Except.ok l) with
  | Except.error e => Except.error e
  | Except.ok centre =>
    Except.ok { centre_latitude := centre.latitude,
                centre_longitude := centre.longitude,
                zoom := 13,
                markers := locations.map (fun l => (l.latitude, l.longitude, l.address)) }

/-- The csv cell rendering of an optional string field: `csv.DictWriter`
writes `None` as the empty string. -/
def pyCsvStr : Option String → String
  | none => ""
  | some s => s

/-- The cattrs unstructure hook of `to_csv` (lines 141-145): a dict of the
`Location` fields in attrs order with `geopy_location` omitted
(`override(omit=True)`), values as the csv writer renders them. -/
def unstructure_location (l : Location) : List (String × String) :=
  [("address", l.address), ("city", l.city), ("name", pyCsvStr l.name)]

/-- `to_csv` (lines 134-151), as the list of csv rows written: the header row
is `csv_data[0].keys()` (IndexError on the empty list), then one row of
values per location. -/
def to_csv (locations : List Location) : Except PyError (List (List String)) :=
  let csv_data := locations.map unstructure_location
  match csv_data with
  | [] => Except.error (PyError.indexError "list index out of range")
  | first :: _ =>
    Except.ok ((first.map Prod.fst) :: csv_data.map (fun d => d.map Prod.snd))

/-- A geocoder whose every call raises (e.g. no network). -/
def geoFail : Geocoder := fun _ => GeoOutcome.raised

/-- A geocoder whose every call returns `None` (nothing found). -/
def geoNotFound : Geocoder := fun _ => GeoOutcome.notFound

/-- A sample scraped row whose photo cell contains an `img`. -/
def sampleRowImg : TableRow := ⟨[⟨"x", false⟩, ⟨"", true⟩, ⟨"12 A St", false⟩]⟩

/-- A sample scraped row whose photo cell is empty. -/
def sampleRowNoImg : TableRow := ⟨[⟨"y", false⟩, ⟨"", false⟩, ⟨"34 B St", false⟩]⟩

/-- A sample scraped table: photo column at header index 1, location column at
header index 2. -/
def sampleTable : HtmlTable := ⟨["Name", "Photo", "Location"], [sampleRowImg, sampleRowNoImg]⟩

/-! ## Claims -/

/-- C1: the claim says the URL's `saddr` is the first location's
`latitude,longitude` pair. On the code it is not: the source computes
`start_str` (exactly that pair) but never uses it, interpolating
`{start_location}` — the attrs `repr` of the `Location` object — into
`saddr` instead, while `daddr` does get the `'+to:'`-joined coordinate
pairs. At a concrete one-location input (geocoding failed, so the pair
renders as `None,None`): the generated URL carries the object repr in
`saddr`, and that repr differs from the coordinate pair. -/
theorem c1_saddr_is_object_repr :
    generate_google_maps_url_for_ios [Location.make geoFail "100 Main St" "Vancouver" none] none =
      Except.ok ("comgooglemaps://?saddr=" ++
        Location.reprStr (Location.make geoFail "100 Main St" "Vancouver" none) ++
        "&daddr=None,None") ∧
    pyFStr (Location.make geoFail "100 Main St" "Vancouver" none).latitude ++ "," ++
        pyFStr (Location.make geoFail "100 Main St" "Vancouver" none).longitude = "None,None" ∧
    Location.reprStr (Location.make geoFail "100 Main St" "Vancouver" none) ≠ "None,None" := by
  decide

/-- C2: for every fetched table whose headers contain the photo substring
(first at `photo_index`) and the location substring (first at
`location_index`): (1) every row with enough cells whose photo cell has no
`img` — in particular an empty photo cell — contributes a `Location` built
from its location cell's text to the output; (2) every output element comes
from such a row of such a table: a row whose photo cell contains an `img` is
never the source of an output entry. -/
theorem c2_photo_filter (geo : Geocoder) (tables : List HtmlTable)
    (location_col photo_col city : String) (table : HtmlTable)
    (hmem : table ∈ tables) (photo_index location_index : Nat)
    (hp : table.headers.findIdx? (fun h => pyIn photo_col h) = some photo_index)
    (hl : table.headers.findIdx? (fun h => pyIn location_col h) = some location_index) :
    (∀ row ∈ table.rows,
        max photo_index location_index < row.cells.length →
        (row.cells.getD photo_index Cell.empty).hasImg = false →
        Location.make geo (row.cells.getD location_index Cell.empty).text city none ∈
          get_locations_without_photos geo tables location_col photo_col city) ∧
    (∀ x ∈ get_locations_without_photos geo tables location_col photo_col city,
      ∃ t, t ∈ tables ∧ ∃ pIdx lIdx,
        t.headers.findIdx? (fun h => pyIn photo_col h) = some pIdx ∧
        t.headers.findIdx? (fun h => pyIn location_col h) = some lIdx ∧
        ∃ row, row ∈ t.rows ∧ max pIdx lIdx < row.cells.length ∧
          (row.cells.getD pIdx Cell.empty).hasImg = false ∧
          x = Location.make geo (row.cells.getD lIdx Cell.empty).text city none) := by
  constructor
  · intro row hrow hlen himg
    unfold get_locations_without_photos
    rw [List.mem_flatten]
    refine ⟨tableLocations geo location_col photo_col city table,
      List.mem_map_of_mem _ hmem, ?_⟩
    unfold tableLocations
    rw [hp, hl]
    apply List.mem_map_of_mem
    rw [List.mem_filter]
    refine ⟨hrow, ?_⟩
    simp only [Bool.and_eq_true, decide_eq_true_eq, Bool.not_eq_true']
    exact ⟨hlen, himg⟩
  · intro x hx
    unfold get_locations_without_photos at hx
    rw [List.mem_flatten] at hx
    obtain ⟨s, hs, hxs⟩ := hx
    rw [List.mem_map] at hs
    obtain ⟨t, ht, rfl⟩ := hs
    refine ⟨t, ht, ?_⟩
    unfold tableLocations at hxs
    revert hxs
    cases hfp : t.headers.findIdx? (fun h => pyIn photo_col h) with
    | none => intro hxs; exact absurd hxs (List.not_mem_nil x)
    | some pIdx =>
      cases hfl : t.headers.findIdx? (fun h => pyIn location_col h) with
      | none => intro hxs; exact absurd hxs (List.not_mem_nil x)
      | some lIdx =>
        intro hxs
        rw [List.mem_map] at hxs
        obtain ⟨row, hrowf, rfl⟩ := hxs
        rw [List.mem_filter] at hrowf
        obtain ⟨hrow, hpred⟩ := hrowf
        simp only [Bool.and_eq_true, Bool.not_eq_true', decide_eq_true_eq] at hpred
        exact ⟨pIdx, lIdx, rfl, rfl, row, hrow, hpred.1, hpred.2, rfl⟩

/-- C2 witness: on a concrete table (photo column 1, location column 2) with
an img row and an empty-photo row, the empty-photo row's `Location` is in
the output. -/
theorem c2_photo_filter_witness :
    Location.make geoNotFound "34 B St" "Vancouver" none ∈
      get_locations_without_photos geoNotFound [sampleTable] "Location" "Photo" "Vancouver" :=
  (c2_photo_filter geoNotFound [sampleTable] "Location" "Photo" "Vancouver" sampleTable
      (by decide) 1 2 (by decide) (by decide)).1 sampleRowNoImg (by decide) (by decide) (by decide)

/-- C3 counterexample: the claim says constructing an `AiReader` with no text
and a missing/empty file path fails with `ValueError` like `read_file` does.
It does not: `__attrs_post_init__` guards the read with `if self.file`, so a
falsy path skips `read_file` and construction succeeds. -/
theorem c3_counterexample :
    (AiReader.make ⟨[], []⟩ ⟨"key"⟩ (some "") "claude-3-opus-20240229" none none).isOk = true ∧
    (AiReader.make ⟨[], []⟩ ⟨"key"⟩ none "claude-3-opus-20240229" none none).isOk = true := by
  decide

/-- C3 amended: `read_file` raises `ValueError` on a missing (`None`) or
empty file path; but constructing an `AiReader` with no text and a
missing/empty file path does not fail that way — the read is skipped and,
for a supported model, construction succeeds with absent text. -/
theorem c3_read_file_invalid_input (fs : FileSystem) (cfg : Config)
    (file : Option String) (model : String) (api_key : Option String)
    (hf : file = none ∨ file = some "") :
    read_file fs file = Except.error (PyError.valueError "No file path provided") ∧
    (pyIn "claude" model = true →
      ∃ r, AiReader.make fs cfg file model none api_key = Except.ok r ∧ r.text = none) := by
  rcases hf with rfl | rfl <;>
    exact ⟨rfl, fun hm => by simp [AiReader.make, load_text, optStrTruthy, hm]⟩

/-- C3 witness: concrete instance with a `None` path and the default claude
model. -/
theorem c3_read_file_invalid_input_witness :
    read_file ⟨[], []⟩ none = Except.error (PyError.valueError "No file path provided") ∧
    (pyIn "claude" "claude-3-opus-20240229" = true →
      ∃ r, AiReader.make ⟨[], []⟩ ⟨"key"⟩ none "claude-3-opus-20240229" none none =
          Except.ok r ∧ r.text = none) :=
  c3_read_file_invalid_input ⟨[], []⟩ ⟨"key"⟩ none "claude-3-opus-20240229" none (Or.inl rfl)

/-- C4: for a readable `.pdf` path, `read_file` returns the page-order
concatenation of each page's extracted text, and exactly when that
concatenation is empty it instead returns the page-order concatenation of the
OCR text of each page's rendered image. -/
theorem c4_pdf_extraction (fs : FileSystem) (file : String) (pages : List PdfPage)
    (hpdf : pyEndsWith file ".pdf" = true)
    (hfs : assocFind fs.pdf file = some pages) :
    (String.join (pages.map (fun p => p.extractedText)) ≠ "" →
      read_file fs (some file) =
        Except.ok (String.join (pages.map (fun p => p.extractedText)))) ∧
    (String.join (pages.map (fun p => p.extractedText)) = "" →
      read_file fs (some file) =
        Except.ok (String.join (pages.map (fun p => p.ocrText)))) := by
  have hne : file ≠ "" := by
    intro h
    subst h
    exact absurd hpdf (by decide)
  constructor <;> intro hx <;>
    simp_all [read_file, text_from_images, hne, hpdf, hfs, String.join, List.foldl_map]

/-- C4 witness: a two-page pdf with embedded text yields the concatenation of
the two pages' texts. -/
theorem c4_pdf_extraction_witness :
    read_file ⟨[], [("doc.pdf", [⟨"p1", "o1"⟩, ⟨"p2", "o2"⟩])]⟩ (some "doc.pdf") =
      Except.ok "p1p2" := by
  have h := (c4_pdf_extraction ⟨[], [("doc.pdf", [⟨"p1", "o1"⟩, ⟨"p2", "o2"⟩])]⟩ "doc.pdf"
      [⟨"p1", "o1"⟩, ⟨"p2", "o2"⟩] (by decide) (by decide)).1 (by decide)
  simpa using h

/-- C5 counterexample: the claim quantifies over every input list, but on the
empty list `to_csv` raises `IndexError` (from `csv_data[0]`) instead of
writing a header-only CSV. -/
theorem c5_counterexample :
    to_csv [] = Except.error (PyError.indexError "list index out of range") := by
  decide

/-- C5 amended: for every non-empty input list, `to_csv` writes a header row
`address,city,name` — the public `Location` fields, `geopy_location`
excluded — and exactly one data row per location; the unstructured dict of a
location is independent of its `geopy_location` field. -/
theorem c5_csv_rows (locations : List Location) (h : locations ≠ []) :
    to_csv locations =
      Except.ok (["address", "city", "name"] ::
        locations.map (fun l => [l.address, l.city, pyCsvStr l.name])) ∧
    (["address", "city", "name"] ::
        locations.map (fun l => [l.address, l.city, pyCsvStr l.name])).length =
      locations.length + 1 ∧
    (∀ l : Location, ∀ g : Option GeopyLocation,
      unstructure_location { l with geopy_location := g } = unstructure_location l) := by
  cases locations with
  | nil => exact absurd rfl h
  | cons a rest =>
    refine ⟨?_, by simp, fun l g => rfl⟩
    simp [to_csv, unstructure_location]

/-- C5 witness: a concrete one-location list. -/
theorem c5_csv_rows_witness :
    to_csv [Location.make geoFail "12 A St" "Vancouver" none] =
      Except.ok [["address", "city", "name"], ["12 A St", "Vancouver", ""]] := by
  have h := (c5_csv_rows [Location.make geoFail "12 A St" "Vancouver" none]
      (by decide)).1
  simpa using h

/-- C6: given that the text-loading step of construction succeeds, an
`AiReader` whose model does not contain `"claude"` raises
`NotImplementedError` naming the model, before any client is built; a model
containing `"claude"` is accepted, yielding the constructed reader. -/
theorem c6_model_check (fs : FileSystem) (cfg : Config) (file : Option String)
    (model : String) (text : Option String) (api_key : Option String)
    (t : Option String) (hload : load_text fs file text = Except.ok t) :
    (pyIn "claude" model = false →
      AiReader.make fs cfg file model text api_key =
        Except.error (PyError.notImplementedError ("Model " ++ model ++ " not supported"))) ∧
    (pyIn "claude" model = true →
      AiReader.make fs cfg file model text api_key =
        Except.ok
          { file := file
            model := model
            text := t
            api_key := some (if optStrTruthy api_key then api_key.getD "" else cfg.ANTHROPIC_API_KEY)
            client_api_key := if optStrTruthy api_key then api_key.getD "" else cfg.ANTHROPIC_API_KEY }) := by
  constructor <;> intro hm <;> simp [AiReader.make, hload, hm]

/-- C6 witness: `"gpt-4"` is rejected with the unsupported-model error;
`"claude-3-opus-20240229"` is accepted. -/
theorem c6_model_check_witness :
    AiReader.make ⟨[], []⟩ ⟨"k"⟩ none "gpt-4" none none =
      Except.error (PyError.notImplementedError "Model gpt-4 not supported") ∧
    AiReader.make ⟨[], []⟩ ⟨"k"⟩ none "claude-3-opus-20240229" none none =
      Except.ok { file := none, model := "claude-3-opus-20240229", text := none,
                  api_key := some "k", client_api_key := "k" } := by
  constructor
  · exact (c6_model_check ⟨[], []⟩ ⟨"k"⟩ none "gpt-4" none none none rfl).1 (by decide)
  · have h := (c6_model_check ⟨[], []⟩ ⟨"k"⟩ none "claude-3-opus-20240229" none none
      none rfl).2 (by decide)
    simpa using h

/-- C7: when the geocoding call for a `Location` under construction fails —
`geocode` returns `None` (not found) or raises — the constructed location has
an absent `geopy_location` and both coordinate properties return `None`;
construction itself is total (the bare `except` swallows the error). -/
theorem c7_geocode_failure (geo : Geocoder) (address city : String) (name : Option String)
    (h : geo (address ++ ", " ++ city) = GeoOutcome.notFound ∨
         geo (address ++ ", " ++ city) = GeoOutcome.raised) :
    (Location.make geo address city name).geopy_location = none ∧
    (Location.make geo address city name).latitude = none ∧
    (Location.make geo address city name).longitude = none := by
  rcases h with h | h <;>
    simp [Location.make, geolocate, geocode_call, Location.latitude, Location.longitude, h]

/-- C7 witness: a geocoder that always raises yields a location with no
coordinates. -/
theorem c7_geocode_failure_witness :
    (Location.make geoFail "1 A St" "Vancouver" none).geopy_location = none ∧
    (Location.make geoFail "1 A St" "Vancouver" none).latitude = none ∧
    (Location.make geoFail "1 A St" "Vancouver" none).longitude = none :=
  c7_geocode_failure geoFail "1 A St" "Vancouver" none (Or.inr rfl)

/-- C8: a non-empty path with an extension other than `.pdf`/`.txt` makes
`read_file` raise `NotImplementedError` naming `file.split('.')[-1]` (the
extension), and the result is the same for every file system — no file
contents are read. -/
theorem c8_unsupported_extension (fs : FileSystem) (file : String)
    (hdot : pyIn "." file = true)
    (hpdf : pyEndsWith file ".pdf" = false) (htxt : pyEndsWith file ".txt" = false) :
    read_file fs (some file) =
      Except.error (PyError.notImplementedError
        ("File type " ++ lastSplitDot file ++ " not supported")) ∧
    ∀ fs2 : FileSystem, read_file fs2 (some file) = read_file fs (some file) := by
  have hne : file ≠ "" := by
    intro h
    subst h
    exact absurd hdot (by decide)
  constructor
  · simp [read_file, hne, hpdf, htxt]
  · intro fs2
    simp [read_file, hne, hpdf, htxt]

/-- C8 witness: `notes.docx` is rejected naming `docx`. -/
theorem c8_unsupported_extension_witness :
    read_file ⟨[("notes.docx", "secret")], []⟩ (some "notes.docx") =
      Except.error (PyError.notImplementedError
        ("File type " ++ lastSplitDot "notes.docx" ++ " not supported")) :=
  (c8_unsupported_extension ⟨[("notes.docx", "secret")], []⟩ "notes.docx"
      (by decide) (by decide) (by decide)).1

/-- C9: no exporter accepts the empty location list: `to_csv` raises
`IndexError` building the header from `csv_data[0]`, and
`generate_google_maps_url_for_ios` and `plot_locations_on_map`, called
without an explicit start/centre, raise `IndexError` from `locations[0]`. -/
theorem c9_empty_list_errors :
    to_csv [] = Except.error (PyError.indexError "list index out of range") ∧
    generate_google_maps_url_for_ios [] none =
      Except.error (PyError.indexError "list index out of range") ∧
    plot_locations_on_map [] none =
      Except.error (PyError.indexError "list index out of range") :=
  ⟨rfl, rfl, rfl⟩

/-- C10: a `Location`'s `latitude` and `longitude` are the mapped coordinates
of `geopy_location`; they are both `None` exactly when `geopy_location` is
absent, and one is present exactly when the other is. -/
theorem c10_lat_long_together (l : Location) :
    l.latitude = l.geopy_location.map (fun g => g.latitude) ∧
    l.longitude = l.geopy_location.map (fun g => g.longitude) ∧
    ((l.latitude = none ∧ l.longitude = none) ↔ l.geopy_location = none) ∧
    (l.latitude.isSome ↔ l.longitude.isSome) := by
  cases h : l.geopy_location <;>
    simp [Location.latitude, Location.longitude, h]

end Hack
